import Mathlib

/-!
Verification of the SSE relay core of the `agent_app` service
(`src/agent_app/agent_app.py`): the SSE block parser `parse_sse_block`,
the event reclassifier inside the `event_stream` generator of
`agent_chat_stream`, and the per-turn resource/sentinel discipline.

The embedding is shallow: Python JSON values become the inductive `JVal`;
Python dicts become ordered association lists with Python's insertion /
update semantics; `json.loads` and `json.dumps` are modelled by
`jsonDecode` / `jsonDumps` (numbers are modelled as integers — no claim
in this development involves floating point); generator `yield`s become
an explicit list of `Frame`s and `conn.close()` invocations are counted.
-/

/-- A JSON value as manipulated by the Python code.  Python dicts are
ordered association lists (insertion order, unique keys when built by
`jsonDecode` or dict literals). Numbers are modelled as integers. -/
inductive JVal where
  | null : JVal
  | bool : Bool → JVal
  | num : Int → JVal
  | str : String → JVal
  | arr : List JVal → JVal
  | obj : List (String × JVal) → JVal

/-- `d.get(k)` on a Python dict: first binding of `k`, `None` if absent
(bindings built by the code at hand have unique keys). -/
def pyGet (kvs : List (String × JVal)) (k : String) : Option JVal :=
  match kvs with
  | [] => none
  | (k0, v0) :: rest => if k0 = k then some v0 else pyGet rest k

/-- `d.get(k, default)` on a Python dict. -/
def pyGetD (kvs : List (String × JVal)) (k : String) (d : JVal) : JVal :=
  (pyGet kvs k).getD d

/-- `d[k] = v` on a Python dict: overwrite in place if the key exists,
append otherwise. -/
def objInsert (kvs : List (String × JVal)) (k : String) (v : JVal) :
    List (String × JVal) :=
  match kvs with
  | [] => [(k, v)]
  | (k0, v0) :: rest =>
      if k0 = k then (k0, v) :: rest else (k0, v0) :: objInsert rest k v

/-- Python truthiness of a JSON value (`if x:`): `None`/`False`/`0`/empty
string/empty list/empty dict are falsy. -/
def truthy : JVal → Bool
  | JVal.null => false
  | JVal.bool b => b
  | JVal.num n => n != 0
  | JVal.str s => s != ""
  | JVal.arr xs => !xs.isEmpty
  | JVal.obj kvs => !kvs.isEmpty

/-- Truthiness of a `dict.get` result (`None` when the key is absent). -/
def truthyOpt : Option JVal → Bool
  | none => false
  | some v => truthy v

/-- Python `a or b`. -/
def pyOr (a b : JVal) : JVal := if truthy a then a else b

/-- The character `{` (written numerically). -/
def lbraceC : Char := Char.ofNat 123

/-- The character `}` (written numerically). -/
def rbraceC : Char := Char.ofNat 125

/-- One lowercase hex digit. -/
def hexDigit (n : Nat) : Char :=
  if n < 10 then Char.ofNat (48 + n) else Char.ofNat (87 + n)

/-- Four lowercase hex digits, as in Python's `\uXXXX` escapes. -/
def hex4 (n : Nat) : String :=
  String.mk [hexDigit (n / 4096 % 16), hexDigit (n / 256 % 16),
             hexDigit (n / 16 % 16), hexDigit (n % 16)]

/-- `json.dumps` escaping of one character (default `ensure_ascii=True`:
characters outside the printable ASCII range are `\u`-escaped, astral
characters as a surrogate pair). -/
def jEscChar (c : Char) : String :=
  if c = '"' then "\\\""
  else if c = '\\' then "\\\\"
  else if c = '\n' then "\\n"
  else if c = '\r' then "\\r"
  else if c = '\t' then "\\t"
  else if c.toNat = 8 then "\\b"
  else if c.toNat = 12 then "\\f"
  else if c.toNat < 32 then "\\u" ++ hex4 c.toNat
  else if c.toNat < 127 then String.singleton c
  else if c.toNat < 65536 then "\\u" ++ hex4 c.toNat
  else
    "\\u" ++ hex4 (55296 + (c.toNat - 65536) / 1024) ++
    "\\u" ++ hex4 (56320 + (c.toNat - 65536) % 1024)

/-- `json.dumps` escaping of a string body. -/
def jEsc (s : String) : String := String.join (s.toList.map jEscChar)

mutual

/-- `json.dumps` with its default separators (`", "` and `": "`). -/
def jsonDumps : JVal → String
  | JVal.null => "null"
  | JVal.bool true => "true"
  | JVal.bool false => "false"
  | JVal.num n => toString n
  | JVal.str s => "\"" ++ jEsc s ++ "\""
  | JVal.arr xs => "[" ++ dumpsArr xs ++ "]"
  | JVal.obj kvs =>
      String.singleton lbraceC ++ dumpsObj kvs ++ String.singleton rbraceC

/-- Comma-joined dump of array elements. -/
def dumpsArr : List JVal → String
  | [] => ""
  | [x] => jsonDumps x
  | x :: y :: xs => jsonDumps x ++ ", " ++ dumpsArr (y :: xs)

/-- Comma-joined dump of object entries. -/
def dumpsObj : List (String × JVal) → String
  | [] => ""
  | [(k, v)] => "\"" ++ jEsc k ++ "\": " ++ jsonDumps v
  | (k, v) :: e :: kvs =>
      "\"" ++ jEsc k ++ "\": " ++ jsonDumps v ++ ", " ++ dumpsObj (e :: kvs)

end

/-- Python `str()` of a JSON value, as interpolated by an f-string. -/
def pyStr : JVal → String
  | JVal.null => "None"
  | JVal.bool true => "True"
  | JVal.bool false => "False"
  | JVal.num n => toString n
  | JVal.str s => s
  | v => jsonDumps v

/-- Skip JSON whitespace. -/
def skipWs : List Char → List Char
  | [] => []
  | c :: cs =>
      if c = ' ' || c = '\t' || c = '\n' || c = '\r' then skipWs cs
      else c :: cs

/-- Match a literal character sequence. -/
def jpLit : List Char → List Char → Option (List Char)
  | [], cs => some cs
  | _ :: _, [] => none
  | l :: ls, c :: cs => if c = l then jpLit ls cs else none

/-- A single named escape in a JSON string literal. -/
def escCharOf (e : Char) : Option Char :=
  if e = '"' then some '"'
  else if e = '\\' then some '\\'
  else if e = '/' then some '/'
  else if e = 'n' then some '\n'
  else if e = 't' then some '\t'
  else if e = 'r' then some '\r'
  else if e = 'b' then some (Char.ofNat 8)
  else if e = 'f' then some (Char.ofNat 12)
  else none

/-- Value of a hex digit character. -/
def hexVal (c : Char) : Option Nat :=
  if '0' ≤ c && c ≤ '9' then some (c.toNat - 48)
  else if 'a' ≤ c && c ≤ 'f' then some (c.toNat - 87)
  else if 'A' ≤ c && c ≤ 'F' then some (c.toNat - 55)
  else none

/-- Parse the body of a JSON string literal (after the opening quote),
returning the decoded string and the input after the closing quote. -/
def jpStr (fuel : Nat) (cs : List Char) : Option (String × List Char) :=
  match fuel, cs with
  | 0, _ => none
  | _, [] => none
  | fuel + 1, c :: cs =>
      if c = '"' then some ("", cs)
      else if c = '\\' then
        match cs with
        | [] => none
        | e :: cs2 =>
            if e = 'u' then
              match cs2 with
              | h1 :: h2 :: h3 :: h4 :: cs3 =>
                  match hexVal h1, hexVal h2, hexVal h3, hexVal h4 with
                  | some a, some b, some c2, some d =>
                      match jpStr fuel cs3 with
                      | some (s, rest) =>
                          some (String.mk
                            (Char.ofNat (a * 4096 + b * 256 + c2 * 16 + d)
                              :: s.toList), rest)
                      | none => none
                  | _, _, _, _ => none
              | _ => none
            else
              match escCharOf e with
              | some ch =>
                  match jpStr fuel cs2 with
                  | some (s, rest) => some (String.mk (ch :: s.toList), rest)
                  | none => none
              | none => none
      else
        match jpStr fuel cs with
        | some (s, rest) => some (String.mk (c :: s.toList), rest)
        | none => none

/-- Parse an integer literal (optionally signed); a following `.`, `e`
or `E` makes the decode fail (floats are outside this model). -/
def jpNum (cs : List Char) : Option (JVal × List Char) :=
  let neg := cs.head? = some '-'
  let cs1 := if neg then cs.tail else cs
  let ds := cs1.takeWhile Char.isDigit
  let rest := cs1.dropWhile Char.isDigit
  if ds.isEmpty then none
  else if rest.head? = some '.' || rest.head? = some 'e'
       || rest.head? = some 'E' then none
  else
    let n : Nat := ds.foldl (fun a c => a * 10 + (c.toNat - 48)) 0
    some (JVal.num (if neg then -(n : Int) else (n : Int)), rest)

mutual

/-- Recursive-descent parse of one JSON value (fuel-indexed). -/
def jpVal : Nat → List Char → Option (JVal × List Char)
  | 0, _ => none
  | fuel + 1, cs =>
      match skipWs cs with
      | [] => none
      | c :: rest =>
          if c = '"' then
            match jpStr (rest.length + 1) rest with
            | some (s, r) => some (JVal.str s, r)
            | none => none
          else if c = lbraceC then
            match skipWs rest with
            | c2 :: rest2 =>
                if c2 = rbraceC then some (JVal.obj [], rest2)
                else jpObjRest fuel [] (c2 :: rest2)
            | [] => none
          else if c = '[' then
            match skipWs rest with
            | c2 :: rest2 =>
                if c2 = ']' then some (JVal.arr [], rest2)
                else jpArrRest fuel [] (c2 :: rest2)
            | [] => none
          else if c = 't' then
            match jpLit ['r', 'u', 'e'] rest with
            | some r => some (JVal.bool true, r)
            | none => none
          else if c = 'f' then
            match jpLit ['a', 'l', 's', 'e'] rest with
            | some r => some (JVal.bool false, r)
            | none => none
          else if c = 'n' then
            match jpLit ['u', 'l', 'l'] rest with
            | some r => some (JVal.null, r)
            | none => none
          else if c = '-' || c.isDigit then jpNum (c :: rest)
          else none
termination_by structural fuel => fuel

/-- Parse the entries of a JSON object (after at least one entry is
known to follow); duplicate keys follow Python `dict` semantics
(last value wins, first position kept). -/
def jpObjRest : Nat → List (String × JVal) → List Char →
    Option (JVal × List Char)
  | 0, _, _ => none
  | fuel + 1, acc, cs =>
      match skipWs cs with
      | c :: rest =>
          if c = '"' then
            match jpStr (rest.length + 1) rest with
            | some (k, r1) =>
                match skipWs r1 with
                | ':' :: r2 =>
                    match jpVal fuel r2 with
                    | some (v, r3) =>
                        let acc2 := objInsert acc k v
                        match skipWs r3 with
                        | ',' :: r4 => jpObjRest fuel acc2 r4
                        | c4 :: r4 =>
                            if c4 = rbraceC then some (JVal.obj acc2, r4)
                            else none
                        | [] => none
                    | none => none
                | _ => none
            | none => none
          else none
      | [] => none
termination_by structural fuel _ _ => fuel

/-- Parse the elements of a JSON array (after at least one element is
known to follow). -/
def jpArrRest : Nat → List JVal → List Char → Option (JVal × List Char)
  | 0, _, _ => none
  | fuel + 1, acc, cs =>
      match jpVal fuel cs with
      | some (v, r1) =>
          match skipWs r1 with
          | ',' :: r2 => jpArrRest fuel (acc ++ [v]) r2
          | ']' :: r2 => some (JVal.arr (acc ++ [v]), r2)
          | _ => none
      | none => none
termination_by structural fuel _ _ => fuel

end

/-- `json.loads`: parse one JSON document, rejecting trailing input. -/
def jsonDecode (s : String) : Option JVal :=
  match jpVal (s.length + 1) s.toList with
  | some (v, rest) => if skipWs rest = [] then some v else none
  | none => none

/-- Python `str` whitespace as stripped by `.strip()` / `.lstrip()`
(the six ASCII whitespace characters). -/
def isPyWs (c : Char) : Bool :=
  c = ' ' || c = '\t' || c = '\n' || c = '\r' ||
  c = Char.ofNat 11 || c = Char.ofNat 12

/-- Python `s.strip()`. -/
def pyStrip (s : String) : String :=
  String.mk (((s.toList.dropWhile isPyWs).reverse.dropWhile isPyWs).reverse)

/-- Python `s.lstrip()`. -/
def pyLStrip (s : String) : String :=
  String.mk (s.toList.dropWhile isPyWs)

/-- Python `s[n:]` (character slicing). -/
def pyDrop (s : String) (n : Nat) : String :=
  String.mk (s.toList.drop n)

/-- Python `s.startswith(p)`. -/
def pyStartsWith (s p : String) : Bool :=
  p.toList.isPrefixOf s.toList

/-- Python `"\n".join(parts)`. -/
def joinNL : List String → String
  | [] => ""
  | [d] => d
  | d :: e :: rest => d ++ "\n" ++ joinNL (e :: rest)

/-- Truthiness of the `event_type` local of `parse_sse_block`
(`None` before any `event:` line; the empty string is falsy). -/
def etTruthy : Option String → Bool
  | none => false
  | some s => s != ""

/-- The `event_type` local as a JSON value (`None` becomes `null`). -/
def jOfEt : Option String → JVal
  | none => JVal.null
  | some s => JVal.str s

/-- The line loop of `parse_sse_block`: an `event:` line sets the event
type (trimmed), a `data:` line appends its left-stripped remainder, any
other line is ignored. -/
def sseScan : List String → Option String → List String →
    Option String × List String
  | [], et, ds => (et, ds)
  | l :: rest, et, ds =>
      if pyStartsWith l "event:" then
        sseScan rest (some (pyStrip (pyDrop l 6))) ds
      else if pyStartsWith l "data:" then
        sseScan rest et (ds ++ [pyLStrip (pyDrop l 5)])
      else sseScan rest et ds

/-- `parse_sse_block` (agent_app.py lines 147-174).  Every non-`none`
result is a Python dict, so the result type is the association list
directly.  The `event` key is injected only when the decoded payload is
a dict, the event type is truthy, and the key is absent. -/
def parse_sse_block (lines : List String) : Option (List (String × JVal)) :=
  if pyStrip (joinNL (sseScan lines none []).2) = "" then none
  else
    match jsonDecode (pyStrip (joinNL (sseScan lines none []).2)) with
    | some (JVal.obj kvs) =>
        if etTruthy (sseScan lines none []).1 && (pyGet kvs "event").isNone
        then some (kvs ++ [("event", JVal.str ((sseScan lines none []).1.getD ""))])
        else some kvs
    | some v => some [("data", v), ("event", jOfEt (sseScan lines none []).1)]
    | none => some [("data", JVal.str (pyStrip (joinNL (sseScan lines none []).2))),
                    ("event", jOfEt (sseScan lines none []).1)]

/-- One outbound SSE chunk of the relay: either `data: <json>\n\n` or
the terminal sentinel `data: [DONE]\n\n`. -/
inductive Frame where
  | data : JVal → Frame
  | done : Frame

/-- The event-type label the dispatch of `event_stream` compares against
string literals (`event_data.get('event')`); a missing or non-string
value matches no branch. -/
def evLabel (kvs : List (String × JVal)) : Option String :=
  match pyGet kvs "event" with
  | some (JVal.str s) => some s
  | _ => none

/-- `isinstance(x, str)` restriction of a `dict.get` result. -/
def asStr : Option JVal → Option String
  | some (JVal.str s) => some s
  | _ => none

/-- The chart-spec search of the `response.chart` branch (agent_app.py
lines 1677-1692): top-level `chart_spec` string; else, when `chart` is a
dict, its `chart_spec` string or its serialization when `mark` or
`encoding` is truthy (with no further fallback); else, when `json` is a
dict, its serialization when `mark` or `encoding` is truthy. -/
def chartSpecOf (kvs : List (String × JVal)) : Option String :=
  match asStr (pyGet kvs "chart_spec") with
  | some s => some s
  | none =>
      match pyGet kvs "chart" with
      | some (JVal.obj c) =>
          match asStr (pyGet c "chart_spec") with
          | some s => some s
          | none =>
              if truthyOpt (pyGet c "mark") || truthyOpt (pyGet c "encoding")
              then some (jsonDumps (JVal.obj c))
              else none
      | _ =>
          match pyGet kvs "json" with
          | some (JVal.obj j) =>
              if truthyOpt (pyGet j "mark") || truthyOpt (pyGet j "encoding")
              then some (jsonDumps (JVal.obj j))
              else none
          | _ => none

/-- The per-block dispatch of `event_stream` (agent_app.py lines
1649-1739), an `elif` chain on `event_data.get('event')`: zero or one
downstream frame per parsed block.  Dict key order inside each frame is
the order of the Python dict literal being `json.dumps`-ed. -/
def reclassify (kvs : List (String × JVal)) : List Frame :=
  if evLabel kvs = some "response.thinking.delta" then
    if truthy (pyGetD kvs "text" (JVal.str "")) then
      [Frame.data (JVal.obj [("content", pyGetD kvs "text" (JVal.str "")),
        ("type", JVal.str "thinking")])]
    else []
  else if evLabel kvs = some "response.text.delta" then
    if truthy (pyGetD kvs "text" (JVal.str "")) then
      [Frame.data (JVal.obj [("content", pyGetD kvs "text" (JVal.str "")),
        ("type", JVal.str "message")])]
    else []
  else if evLabel kvs = some "response.table" then
    if truthy (pyOr (pyOr ((pyGet kvs "table").getD JVal.null)
        ((pyGet kvs "json").getD JVal.null))
        ((pyGet kvs "content").getD JVal.null)) then
      [Frame.data (JVal.obj [("type", JVal.str "table"),
        ("data", pyOr (pyOr ((pyGet kvs "table").getD JVal.null)
          ((pyGet kvs "json").getD JVal.null))
          ((pyGet kvs "content").getD JVal.null))])]
    else []
  else if evLabel kvs = some "response.chart" then
    match chartSpecOf kvs with
    | some s =>
        if s != "" then
          [Frame.data (JVal.obj
            [("type", JVal.str "chart"), ("chart_spec", JVal.str s)])]
        else []
    | none => []
  else if evLabel kvs = some "response.tool_use" then
    [Frame.data (JVal.obj
      [("content", JVal.str (pyStrip ("🔧 Using tool: " ++
          pyStr (pyOr (pyGetD kvs "tool_name" (JVal.str ""))
            (pyGetD kvs "tool_type" (JVal.str "")))))),
       ("type", JVal.str "status")])]
  else if evLabel kvs = some "response.tool_result.analyst.delta" then
    match pyGetD kvs "delta" (JVal.obj []) with
    | JVal.obj d =>
        if truthy ((pyGet d "sql").getD JVal.null) then
          [Frame.data (JVal.obj [("type", JVal.str "sql"),
            ("sql", (pyGet d "sql").getD JVal.null),
            ("explanation", (pyGet d "sql_explanation").getD JVal.null)])]
        else []
    | _ => []
  else if evLabel kvs = some "response.status" then
    if truthy (pyGetD kvs "message" (JVal.str "")) then
      [Frame.data (JVal.obj
        [("content", JVal.str ("⏳ " ++ pyStr (pyGetD kvs "message" (JVal.str "")))),
         ("type", JVal.str "status")])]
    else []
  else if evLabel kvs = some "error" then
    [Frame.data (JVal.obj
      [("content", JVal.str ("⚠️ Error: " ++
          pyStr (pyGetD kvs "message" (JVal.str "Unknown error")))),
       ("type", JVal.str "message")])]
  else []

/-- `line.strip('\n')`. -/
def stripNL (s : String) : String :=
  String.mk (((s.toList.dropWhile fun c => c = '\n').reverse.dropWhile
    fun c => c = '\n').reverse)

/-- Handling of one completed block buffer: parse, skip when the result
is `None` or an empty (falsy) dict, otherwise dispatch. -/
def processBlock (buf : List String) : List Frame :=
  match parse_sse_block buf with
  | some kvs => if !kvs.isEmpty then reclassify kvs else []
  | none => []

/-- The `for line in response.iter_lines(...)` loop of `event_stream`:
an empty line closes the pending buffer (parsing it when non-empty), any
other line is buffered; a trailing unterminated buffer is dropped. -/
def processLines : List String → List String → List Frame
  | [], _ => []
  | l :: rest, buf =>
      if stripNL l = "" then
        (if !buf.isEmpty then processBlock buf else []) ++
          processLines rest []
      else processLines rest (buf ++ [stripNL l])

/-- The upstream line stream of one turn: either it is exhausted
normally, or iterating it raises after yielding a prefix of lines
(`str(e)` of the exception given as the message). -/
inductive Upstream where
  | ok : List String → Upstream
  | failAfter : List String → String → Upstream

/-- The upstream HTTP response to the agent-run POST: status code, body
text (read on the non-200 path), and the line stream (200 path). -/
structure UpstreamResponse where
  status : Nat
  body : String
  stream : Upstream

/-- The error text of the non-200 branch: the body (or `HTTP <code>`
when empty); when that text is JSON *object*, its `message` field
(default: the text itself), via `str()`.  A JSON non-object body makes
`error_json.get` raise `AttributeError`, caught by the bare `except`,
falling back to the raw text. -/
def errorDetail (status : Nat) (body : String) : String :=
  match jsonDecode (if body = "" then "HTTP " ++ toString status else body) with
  | some (JVal.obj kvs) =>
      pyStr (pyGetD kvs "message"
        (JVal.str (if body = "" then "HTTP " ++ toString status else body)))
  | _ => if body = "" then "HTTP " ++ toString status else body

/-- The outcome of one fully-drained run of the `event_stream`
generator: the yielded frames and the number of `conn.close()`
invocations. -/
structure TurnResult where
  frames : List Frame
  closes : Nat

/-- The `event_stream` generator of `agent_chat_stream` (agent_app.py
lines 1604-1753), fully drained by the consumer.  On the non-200 branch
`conn.close()` is invoked twice: once explicitly before `return`, and a
second time by the `finally` block (its exception swallowed by the
inner `try`/`except`).  On the 200 branches only the `finally` close
runs. -/
def event_stream (resp : UpstreamResponse) : TurnResult :=
  if resp.status != 200 then
    { frames := [Frame.data (JVal.obj
        [("error", JVal.str (errorDetail resp.status resp.body))]),
        Frame.done],
      closes := 2 }
  else
    match resp.stream with
    | Upstream.ok lines =>
        { frames := processLines lines [] ++ [Frame.done], closes := 1 }
    | Upstream.failAfter lines msg =>
        { frames := processLines lines [] ++
            [Frame.data (JVal.obj [("error", JVal.str msg)]), Frame.done],
          closes := 1 }

/-- A client disconnect after the consumer took `k` of the frames
(meaningful for `k` less than the full frame count): `GeneratorExit` is
delivered at the next `yield`; `except Exception` does not catch it, so
no further frame is yielded, and the `finally` block performs the single
`conn.close()` (the explicit non-200 close sits after the last `yield`
of its branch, so it is never reached on an early exit). -/
def event_stream_disconnect (resp : UpstreamResponse) (k : Nat) :
    TurnResult :=
  { frames := (event_stream resp).frames.take k, closes := 1 }

/-- Outcome of a POST to `/api/cortex/agent/chat`: an `HTTPException`
raised before any streaming, or a streaming response. -/
inductive ChatOutcome where
  | httpError : Nat → ChatOutcome
  | stream : TurnResult → ChatOutcome

/-- Result of the handler together with the number of warehouse
connections successfully opened. -/
structure ChatResult where
  outcome : ChatOutcome
  connectsOpened : Nat

/-- `if not all([agent_database, agent_schema, agent_name, message])`
of `agent_chat_stream` (agent_app.py lines 1541-1547): all four body
fields must be present and truthy. -/
def requiredFieldsOk (body : List (String × JVal)) : Bool :=
  truthyOpt (pyGet body "agent_database") &&
  truthyOpt (pyGet body "agent_schema") &&
  truthyOpt (pyGet body "agent_name") &&
  truthyOpt (pyGet body "message")

/-- The `agent_chat_stream` handler (agent_app.py lines 1532-1761):
field validation responds 400 before `sc.connect`; a failing connect
responds 401 with nothing acquired; otherwise the connection is opened
and the turn streams. -/
def agent_chat_stream (body : List (String × JVal)) (connectOk : Bool)
    (resp : UpstreamResponse) : ChatResult :=
  if !requiredFieldsOk body then
    { outcome := ChatOutcome.httpError 400, connectsOpened := 0 }
  else if !connectOk then
    { outcome := ChatOutcome.httpError 401, connectsOpened := 0 }
  else
    { outcome := ChatOutcome.stream (event_stream resp), connectsOpened := 1 }

/-- Frames reaching the browser from a handler outcome (an
`HTTPException` response carries none). -/
def chatFrames : ChatResult → List Frame
  | { outcome := ChatOutcome.httpError _, connectsOpened := _ } => []
  | { outcome := ChatOutcome.stream r, connectsOpened := _ } => r.frames

/-- The eight upstream event-type labels the dispatch classifies. -/
def classifiedLabels : List String :=
  ["response.thinking.delta", "response.text.delta", "response.table",
   "response.chart", "response.tool_use",
   "response.tool_result.analyst.delta", "response.status", "error"]
/-- The upstream response of C6's concrete scenario: HTTP 500 whose
body is a JSON object carrying a `message` field. -/
def rateLimitedResp : UpstreamResponse :=
  { status := 500, body := "\x7b\"message\":\"rate limited\"\x7d",
    stream := Upstream.ok [] }
/-- Sameness of two payloads as JSON documents: Python dicts are
unordered, so two object payloads are the same document when every key
looks up the same value; other values must be equal. -/
def objEquiv : JVal → JVal → Prop
  | JVal.obj a, JVal.obj b => ∀ k, pyGet a k = pyGet b k
  | a, b => a = b
/-- Sameness of two outbound frames as wire messages. -/
def frameEquiv : Frame → Frame → Prop
  | Frame.data a, Frame.data b => objEquiv a b
  | Frame.done, Frame.done => True
  | _, _ => False
/-- Pointwise sameness of two frame sequences. -/
def framesEquiv : List Frame → List Frame → Prop :=
  List.Forall₂ frameEquiv
/-- Modelled from the spec (§4.2 table, `table` row): the first
Python-truthy value among the `table`, `json`, `content` fields, the
row's "table/json/content field present" condition read — as
throughout the table — as Python-truthy presence. -/
def firstPresent3 (a b c : Option JVal) : Option JVal :=
  if truthyOpt a then a
  else if truthyOpt b then b
  else if truthyOpt c then c
  else none
/-- Modelled from the spec (§4.2 table, `chart` row, and §9's ordered
short-circuiting extractors): the chart-spec candidate a nested chart
object itself offers — its own non-empty `chart_spec` string first,
else its serialization when its `mark` or `encoding` value is truthy. -/
def specNestedChart (c : List (String × JVal)) : Option String :=
  match asStr (pyGet c "chart_spec") with
  | some s => if s = "" then none else some s
  | none =>
      if truthyOpt (pyGet c "mark") || truthyOpt (pyGet c "encoding")
      then some (jsonDumps (JVal.obj c))
      else none
/-- Modelled from the spec (§4.2 table, `chart` row): "a chart spec
string, or an object containing mark/encoding keys, found in any of
several nested locations".  The spec leaves the locations unnamed; the
candidates are the implementation's — top-level `chart_spec`, then the
`chart` object (which resolves the block when it is a dict), then the
`json` object — tried in order, short-circuiting on the first match
(§9), with presence read as Python-truthy. -/
def specChartSpec (kvs : List (String × JVal)) : Option String :=
  match asStr (pyGet kvs "chart_spec") with
  | some s => if s = "" then none else some s
  | none =>
      match pyGet kvs "chart" with
      | some (JVal.obj c) => specNestedChart c
      | _ =>
          match pyGet kvs "json" with
          | some (JVal.obj j) =>
              if truthyOpt (pyGet j "mark") || truthyOpt (pyGet j "encoding")
              then some (jsonDumps (JVal.obj j))
              else none
          | _ => none
/-- Modelled from the spec: the §4.2 reclassification table with the §6
downstream frame shapes.  Conditions are read as Python-truthy presence
(consistently with the spec's treatment of empty tool names); the cells
the table leaves loose — the human-readable status/tool-use/error label
texts and the error default — are instantiated from the implementation,
as is the chart-location order (see `specChartSpec`). -/
def specReclassify (kvs : List (String × JVal)) : List Frame :=
  if evLabel kvs = some "response.thinking.delta" then
    if truthyOpt (pyGet kvs "text") then
      [Frame.data (JVal.obj [("type", JVal.str "thinking"),
        ("content", (pyGet kvs "text").getD JVal.null)])]
    else []
  else if evLabel kvs = some "response.text.delta" then
    if truthyOpt (pyGet kvs "text") then
      [Frame.data (JVal.obj [("type", JVal.str "message"),
        ("content", (pyGet kvs "text").getD JVal.null)])]
    else []
  else if evLabel kvs = some "response.table" then
    match firstPresent3 (pyGet kvs "table") (pyGet kvs "json")
        (pyGet kvs "content") with
    | some v =>
        [Frame.data (JVal.obj [("type", JVal.str "table"), ("data", v)])]
    | none => []
  else if evLabel kvs = some "response.chart" then
    match specChartSpec kvs with
    | some s =>
        [Frame.data (JVal.obj
          [("type", JVal.str "chart"), ("chart_spec", JVal.str s)])]
    | none => []
  else if evLabel kvs = some "response.tool_use" then
    [Frame.data (JVal.obj [("type", JVal.str "status"),
      ("content", JVal.str (pyStrip ("🔧 Using tool: " ++
        pyStr (pyOr (pyGetD kvs "tool_name" (JVal.str ""))
          (pyGetD kvs "tool_type" (JVal.str ""))))))])]
  else if evLabel kvs = some "response.tool_result.analyst.delta" then
    match pyGetD kvs "delta" (JVal.obj []) with
    | JVal.obj d =>
        if truthyOpt (pyGet d "sql") then
          [Frame.data (JVal.obj [("type", JVal.str "sql"),
            ("sql", (pyGet d "sql").getD JVal.null),
            ("explanation", (pyGet d "sql_explanation").getD JVal.null)])]
        else []
    | _ => []
  else if evLabel kvs = some "response.status" then
    if truthyOpt (pyGet kvs "message") then
      [Frame.data (JVal.obj [("type", JVal.str "status"),
        ("content", JVal.str ("⏳ " ++
          pyStr ((pyGet kvs "message").getD JVal.null)))])]
    else []
  else if evLabel kvs = some "error" then
    [Frame.data (JVal.obj [("type", JVal.str "message"),
      ("content", JVal.str ("⚠️ Error: " ++
        pyStr (pyGetD kvs "message" (JVal.str "Unknown error"))))])]
  else []

example : parse_sse_block ["event: response.text.delta",
    "data: \x7b\"text\":\"hi\"\x7d", ""] =
    some [("text", JVal.str "hi"),
          ("event", JVal.str "response.text.delta")] := by rfl

example : parse_sse_block ["data: not-json"] =
    some [("data", JVal.str "not-json"), ("event", JVal.null)] := by rfl

example : reclassify [("text", JVal.str "hi"),
    ("event", JVal.str "response.text.delta")] =
    [Frame.data (JVal.obj
      [("content", JVal.str "hi"), ("type", JVal.str "message")])] := by rfl

/-- The sentinel and a data frame differ. -/
theorem frame_done_ne (v : JVal) : Frame.done ≠ Frame.data v :=
  fun h => Frame.noConfusion h

set_option maxHeartbeats 1000000 in
/-- The dispatch emits zero frames or a single data frame. -/
theorem reclassify_shape (kvs : List (String × JVal)) :
    reclassify kvs = [] ∨ ∃ v, reclassify kvs = [Frame.data v] := by
  unfold reclassify
  split_ifs <;>
    first
      | exact Or.inl rfl
      | exact Or.inr ⟨_, rfl⟩
      | ((repeat' split) <;> first | exact Or.inl rfl | exact Or.inr ⟨_, rfl⟩)

/-- Every frame the dispatch emits is a `data` frame; the terminal
sentinel is produced only by the tail of `event_stream` itself. -/
theorem reclassify_no_done (kvs : List (String × JVal)) :
    Frame.done ∉ reclassify kvs := by
  rcases reclassify_shape kvs with h | ⟨v, h⟩ <;> simp [h, frame_done_ne]

/-- Block handling never emits the sentinel. -/
theorem processBlock_no_done (buf : List String) :
    Frame.done ∉ processBlock buf := by
  unfold processBlock
  split
  · split
    · exact reclassify_no_done _
    · simp
  · simp

/-- The streaming loop never emits the sentinel. -/
theorem processLines_no_done (lines : List String) :
    ∀ buf, Frame.done ∉ processLines lines buf := by
  induction lines with
  | nil => intro buf h; simp [processLines] at h
  | cons l rest ih =>
      intro buf h
      rw [processLines] at h
      by_cases hl : stripNL l = ""
      · rw [if_pos hl] at h
        rcases List.mem_append.mp h with h1 | h1
        · cases hb : buf.isEmpty
          · rw [hb] at h1
            exact processBlock_no_done _ h1
          · rw [hb] at h1
            simp at h1
        · exact ih [] h1
      · rw [if_neg hl] at h
        exact ih _ h

/-- C1: on every exit path of `event_stream` — normal exhaustion of the
upstream stream, an upstream non-200 response, and a mid-stream
exception — the terminal sentinel `data: [DONE]` is emitted exactly
once, after all data frames: the frame list is a done-free prefix
followed by a single final sentinel. -/
theorem event_stream_done_once (resp : UpstreamResponse) :
    ∃ ds, (event_stream resp).frames = ds ++ [Frame.done] ∧
      Frame.done ∉ ds := by
  unfold event_stream
  by_cases h : (resp.status != 200) = true
  · rw [if_pos h]
    refine ⟨[Frame.data (JVal.obj
      [("error", JVal.str (errorDetail resp.status resp.body))])], rfl, ?_⟩
    intro hm
    rw [List.mem_singleton] at hm
    exact Frame.noConfusion hm
  · rw [if_neg h]
    cases hs : resp.stream with
    | ok lines => exact ⟨processLines lines [], rfl, processLines_no_done _ _⟩
    | failAfter lines msg =>
        refine ⟨processLines lines [] ++
          [Frame.data (JVal.obj [("error", JVal.str msg)])], by simp, ?_⟩
        intro hm
        rcases List.mem_append.mp hm with h1 | h1
        · exact processLines_no_done _ _ h1
        · rw [List.mem_singleton] at h1
          exact Frame.noConfusion h1

/-- C2 counterexample: on the upstream non-200 path `conn.close()` is
invoked twice — once explicitly before `return` and once more by the
`finally` block — so the release count is not 1 there. -/
theorem event_stream_close_twice :
    (event_stream { status := 500, body := "", stream := Upstream.ok [] }).closes
      = 2 ∧
    (event_stream { status := 500, body := "", stream := Upstream.ok [] }).closes
      ≠ 1 :=
  ⟨rfl, by decide⟩

/-- C2 (amended): `conn.close()` is invoked exactly once on the 200
paths (normal completion and mid-stream exception) and on a client
disconnect, but twice on the upstream non-200 path (the second call's
exception swallowed); hence at least once on every exit path. -/
theorem event_stream_close_discipline (resp : UpstreamResponse) (k : Nat)
    (_hk : k < (event_stream resp).frames.length) :
    1 ≤ (event_stream resp).closes ∧
    (resp.status = 200 → (event_stream resp).closes = 1) ∧
    (resp.status ≠ 200 → (event_stream resp).closes = 2) ∧
    (event_stream_disconnect resp k).closes = 1 := by
  by_cases h : resp.status = 200
  · cases hs : resp.stream <;>
      simp [event_stream, event_stream_disconnect, h, hs]
  · simp [event_stream, event_stream_disconnect, bne_iff_ne, h]

/-- Witness for C2's amended theorem at a concrete 200-status turn. -/
theorem event_stream_close_discipline_witness :
    0 < (event_stream
      { status := 200, body := "", stream := Upstream.ok [] }).frames.length ∧
    (event_stream
      { status := 200, body := "", stream := Upstream.ok [] }).closes = 1 :=
  ⟨by decide,
   (event_stream_close_discipline
     { status := 200, body := "", stream := Upstream.ok [] } 0
     (by decide)).2.1 rfl⟩

/-- C4: a block whose event-type label is not one of the classified
types produces no downstream frame (and, being a total function, the
dispatch raises nothing). -/
theorem reclassify_unclassified_empty (kvs : List (String × JVal))
    (h : ∀ s ∈ classifiedLabels, evLabel kvs ≠ some s) :
    reclassify kvs = [] := by
  have h1 := h "response.thinking.delta" (by simp [classifiedLabels])
  have h2 := h "response.text.delta" (by simp [classifiedLabels])
  have h3 := h "response.table" (by simp [classifiedLabels])
  have h4 := h "response.chart" (by simp [classifiedLabels])
  have h5 := h "response.tool_use" (by simp [classifiedLabels])
  have h6 := h "response.tool_result.analyst.delta" (by simp [classifiedLabels])
  have h7 := h "response.status" (by simp [classifiedLabels])
  have h8 := h "error" (by simp [classifiedLabels])
  simp [reclassify, h1, h2, h3, h4, h5, h6, h7, h8]

/-- Witness for C4 at a concrete unclassified label. -/
theorem reclassify_unclassified_empty_witness :
    reclassify [("event", JVal.str "response.done")] = [] :=
  reclassify_unclassified_empty _ (by decide)

/-- C5: `parse_sse_block` is total (it is a Lean function), and when the
accumulated data payload is non-empty but fails to decode as JSON it
degrades to wrapping the raw string; the lone line `data: not-json`
parses to the dict with `data` the raw string and `event` None. -/
theorem parse_sse_block_degrades :
    (∀ lines : List String,
      pyStrip (joinNL (sseScan lines none []).2) ≠ "" →
      jsonDecode (pyStrip (joinNL (sseScan lines none []).2)) = none →
      parse_sse_block lines =
        some [("data", JVal.str (pyStrip (joinNL (sseScan lines none []).2))),
              ("event", jOfEt (sseScan lines none []).1)]) ∧
    parse_sse_block ["data: not-json"] =
      some [("data", JVal.str "not-json"), ("event", JVal.null)] := by
  constructor
  · intro lines hne hfail
    unfold parse_sse_block
    rw [if_neg hne, hfail]
  · rfl

/-- Witness for C5 at the claim's concrete malformed payload. -/
theorem parse_sse_block_degrades_witness :
    parse_sse_block ["data: not-json"] =
      some [("data", JVal.str "not-json"), ("event", JVal.null)] :=
  parse_sse_block_degrades.1 ["data: not-json"] (by decide) (by rfl)

/-- C6: on an upstream non-200 response the relay emits exactly one
error frame followed by the sentinel and releases the connection; the
error text is the body's `message` field when the body is a JSON object
carrying one, else the raw body text. -/
theorem event_stream_upstream_error (resp : UpstreamResponse)
    (h : resp.status ≠ 200) :
    (event_stream resp).frames =
      [Frame.data (JVal.obj
        [("error", JVal.str (errorDetail resp.status resp.body))]),
       Frame.done] ∧
    1 ≤ (event_stream resp).closes ∧
    (∀ kvs v,
      jsonDecode (if resp.body = "" then "HTTP " ++ toString resp.status
        else resp.body) = some (JVal.obj kvs) →
      pyGet kvs "message" = some v →
      errorDetail resp.status resp.body = pyStr v) ∧
    (resp.body ≠ "" →
      (¬ ∃ kvs v, jsonDecode resp.body = some (JVal.obj kvs) ∧
        pyGet kvs "message" = some v) →
      errorDetail resp.status resp.body = resp.body) := by
  have hb : (resp.status != 200) = true := by simp [bne_iff_ne, h]
  refine ⟨?_, ?_, ?_, ?_⟩
  · unfold event_stream
    rw [if_pos hb]
  · unfold event_stream
    rw [if_pos hb]
    exact Nat.le_succ 1
  · intro kvs v hdec hmsg
    unfold errorDetail
    rw [hdec]
    dsimp only
    unfold pyGetD
    rw [hmsg]
    rfl
  · intro hbody hnomsg
    unfold errorDetail
    rw [if_neg hbody]
    rcases hdec : jsonDecode resp.body with _ | x
    · rfl
    · cases x with
      | obj kvs =>
          rcases hmsg : pyGet kvs "message" with _ | v
          · dsimp only
            unfold pyGetD
            rw [hmsg]
            rfl
          · exact absurd ⟨kvs, v, hdec, hmsg⟩ hnomsg
      | null => rfl
      | bool b => rfl
      | num n => rfl
      | str s => rfl
      | arr xs => rfl

/-- Witness for C6: HTTP 500 with body carrying a `message` field. -/
theorem event_stream_upstream_error_witness :
    (event_stream rateLimitedResp).frames =
      [Frame.data (JVal.obj [("error", JVal.str "rate limited")]),
       Frame.done] ∧
    1 ≤ (event_stream rateLimitedResp).closes := by
  have h := event_stream_upstream_error rateLimitedResp (by decide)
  exact ⟨by rw [h.1]; rfl, h.2.1⟩

/-- C8 counterexample: a tool-use block whose tool name and tool type
are both empty still produces one downstream frame (the bare
`🔧 Using tool:` status), not zero. -/
theorem tool_use_empty_emits_frame :
    reclassify [("event", JVal.str "response.tool_use"),
      ("tool_name", JVal.str ""), ("tool_type", JVal.str "")] =
      [Frame.data (JVal.obj [("content", JVal.str "🔧 Using tool:"),
        ("type", JVal.str "status")])] ∧
    (reclassify [("event", JVal.str "response.tool_use"),
      ("tool_name", JVal.str ""), ("tool_type", JVal.str "")]).length = 1 :=
  ⟨rfl, rfl⟩

/-- C8 (amended): the block-to-frame mapping is one-to-zero-or-one, and
a tool-use block with empty tool name and type produces exactly one
status frame whose content is the bare tool-use label. -/
theorem reclassify_zero_or_one :
    (∀ kvs, (reclassify kvs).length ≤ 1) ∧
    reclassify [("event", JVal.str "response.tool_use"),
      ("tool_name", JVal.str ""), ("tool_type", JVal.str "")] =
      [Frame.data (JVal.obj [("content", JVal.str "🔧 Using tool:"),
        ("type", JVal.str "status")])] := by
  constructor
  · intro kvs
    rcases reclassify_shape kvs with h | ⟨v, h⟩ <;> simp [h]
  · rfl

/-- C10: a chat POST whose body lacks (or has a falsy value for) any of
the four required fields is answered 400 before any warehouse
connection is opened or frame emitted. -/
theorem agent_chat_missing_field_400 (body : List (String × JVal))
    (co : Bool) (resp : UpstreamResponse)
    (h : requiredFieldsOk body = false) :
    agent_chat_stream body co resp =
      { outcome := ChatOutcome.httpError 400, connectsOpened := 0 } ∧
    chatFrames (agent_chat_stream body co resp) = [] := by
  constructor <;> simp [agent_chat_stream, chatFrames, h]

/-- Witness for C10: a body missing `message` (three fields present). -/
theorem agent_chat_missing_field_400_witness :
    agent_chat_stream [("agent_database", JVal.str "db"),
      ("agent_schema", JVal.str "sch"), ("agent_name", JVal.str "ag")] true
      { status := 200, body := "", stream := Upstream.ok [] } =
      { outcome := ChatOutcome.httpError 400, connectsOpened := 0 } :=
  (agent_chat_missing_field_400 _ _ _ (by decide)).1

/-- The serialization of a JSON object is never the empty string (it is
wrapped in braces), so a serialized chart object always passes the
truthiness guard before the yield. -/
theorem jsonDumps_obj_ne_empty (c : List (String × JVal)) :
    (jsonDumps (JVal.obj c) != "") = true := by
  rw [jsonDumps]
  simp [bne_iff_ne, String.ext_iff, String.singleton]

/-- C7 counterexample: with no top-level `chart_spec`, a nested chart
object that carries both a `chart_spec` string and a truthy `mark` key
yields a frame whose spec is the nested string — not the serialization
of the nested object, because the nested `chart_spec` location is tried
first and short-circuits. -/
theorem chart_nested_spec_precedence :
    reclassify [("event", JVal.str "response.chart"),
      ("chart", JVal.obj [("chart_spec", JVal.str "spec-x"),
        ("mark", JVal.str "bar")])] =
      [Frame.data (JVal.obj [("type", JVal.str "chart"),
        ("chart_spec", JVal.str "spec-x")])] ∧
    "spec-x" ≠ jsonDumps (JVal.obj [("chart_spec", JVal.str "spec-x"),
      ("mark", JVal.str "bar")]) :=
  ⟨rfl, by decide⟩

/-- C7 (amended): a chart block with no top-level `chart_spec` string
whose `chart` value is an object with no `chart_spec` string of its own
and a truthy `mark` or `encoding` value yields exactly one `chart`
frame whose spec is the JSON serialization of that nested object; the
candidate locations are tried in a fixed order, short-circuiting on the
first match (so a nested `chart_spec` string would take precedence). -/
theorem chart_nested_serialized (kvs : List (String × JVal))
    (c : List (String × JVal))
    (hev : evLabel kvs = some "response.chart")
    (htop : asStr (pyGet kvs "chart_spec") = none)
    (hc : pyGet kvs "chart" = some (JVal.obj c))
    (hnested : asStr (pyGet c "chart_spec") = none)
    (hmk : (truthyOpt (pyGet c "mark") || truthyOpt (pyGet c "encoding"))
      = true) :
    reclassify kvs = [Frame.data (JVal.obj [("type", JVal.str "chart"),
      ("chart_spec", JVal.str (jsonDumps (JVal.obj c)))])] := by
  have hcs : chartSpecOf kvs = some (jsonDumps (JVal.obj c)) := by
    unfold chartSpecOf
    rw [htop, hc]
    dsimp only
    rw [hnested]
    dsimp only
    rw [if_pos hmk]
  simp [reclassify, hev, hcs, jsonDumps_obj_ne_empty c]

/-- Witness for C7's amended theorem: nested chart object with a truthy
`mark` and no `chart_spec` anywhere. -/
theorem chart_nested_serialized_witness :
    reclassify [("event", JVal.str "response.chart"),
      ("chart", JVal.obj [("mark", JVal.str "bar")])] =
      [Frame.data (JVal.obj [("type", JVal.str "chart"),
        ("chart_spec", JVal.str "\x7b\"mark\": \"bar\"\x7d")])] := by
  have h := chart_nested_serialized
    [("event", JVal.str "response.chart"),
     ("chart", JVal.obj [("mark", JVal.str "bar")])]
    [("mark", JVal.str "bar")] rfl rfl rfl rfl rfl
  rw [h]
  rfl

/-- Appending a fresh binding for another key leaves a lookup
unchanged. -/
theorem pyGet_append_of_ne (kvs : List (String × JVal)) (k e : String)
    (v : JVal) (h : k ≠ e) :
    pyGet (kvs ++ [(e, v)]) k = pyGet kvs k := by
  induction kvs with
  | nil =>
      simp only [List.nil_append, pyGet]
      rw [if_neg (fun hh => h hh.symm)]
  | cons p rest ih =>
      rcases p with ⟨k0, v0⟩
      simp only [List.cons_append, pyGet]
      split
      · rfl
      · exact ih

/-- Appending a binding for an absent key makes its lookup find it. -/
theorem pyGet_append_absent (kvs : List (String × JVal)) (e : String)
    (v : JVal) (h : pyGet kvs e = none) :
    pyGet (kvs ++ [(e, v)]) e = some v := by
  induction kvs with
  | nil => simp [pyGet]
  | cons p rest ih =>
      rcases p with ⟨k0, v0⟩
      rw [pyGet] at h
      by_cases hk : k0 = e
      · rw [if_pos hk] at h
        exact Option.noConfusion h
      · rw [if_neg hk] at h
        simp only [List.cons_append, pyGet]
        rw [if_neg hk]
        exact ih h

/-- C9 counterexample: a block with an *empty* event-type label (line
`event:`) whose payload decodes to an object lacking the reserved key
does not get the key injected — the injection also requires the label
to be truthy, not merely the key to be absent. -/
theorem event_inject_skips_empty_label :
    parse_sse_block ["event:", "data: \x7b\"a\": 1\x7d"] =
      some [("a", JVal.num 1)] ∧
    (sseScan ["event:", "data: \x7b\"a\": 1\x7d"] none []).1 = some "" ∧
    pyGet [("a", JVal.num 1)] "event" = none :=
  ⟨rfl, rfl, rfl⟩

/-- C9 (amended): when the data payload decodes to a JSON object, the
parser sets the reserved `event` key to the block's event-type label if
and only if the label is truthy (present and non-empty) and the object
does not already carry the key; every other key's lookup in the decoded
object is left unchanged. -/
theorem parse_inject_merge (lines : List String)
    (kvs : List (String × JVal))
    (hdec : jsonDecode (pyStrip (joinNL (sseScan lines none []).2)) =
      some (JVal.obj kvs)) :
    ∃ res, parse_sse_block lines = some res ∧
      (∀ k, k ≠ "event" → pyGet res k = pyGet kvs k) ∧
      pyGet res "event" =
        (if (pyGet kvs "event").isSome then pyGet kvs "event"
         else if etTruthy (sseScan lines none []).1 then
           some (JVal.str ((sseScan lines none []).1.getD ""))
         else none) := by
  have hne : pyStrip (joinNL (sseScan lines none []).2) ≠ "" := by
    intro h0
    rw [h0] at hdec
    have h1 : jsonDecode "" = none := rfl
    rw [h1] at hdec
    exact Option.noConfusion hdec
  unfold parse_sse_block
  rw [if_neg hne, hdec]
  dsimp only
  by_cases hinj :
      (etTruthy (sseScan lines none []).1 && (pyGet kvs "event").isNone) = true
  · rw [if_pos hinj]
    rw [Bool.and_eq_true] at hinj
    obtain ⟨het, habs⟩ := hinj
    have habs' : pyGet kvs "event" = none :=
      Option.isNone_iff_eq_none.mp habs
    refine ⟨_, rfl, ?_, ?_⟩
    · intro k hk
      exact pyGet_append_of_ne _ _ _ _ hk
    · rw [pyGet_append_absent _ _ _ habs']
      simp [habs', het]
  · rw [if_neg hinj]
    refine ⟨kvs, rfl, fun k _ => rfl, ?_⟩
    rcases hev : pyGet kvs "event" with _ | v
    · rw [hev] at hinj
      simp only [Option.isNone_none, Bool.and_true] at hinj
      simp [hev, Bool.eq_false_iff.mpr hinj]
    · simp [hev]

/-- Witness for C9's amended theorem: a truthy label `e1` and a payload
object lacking the reserved key get the label injected at the end; the
other key's lookup is unchanged. -/
theorem parse_inject_merge_witness :
    parse_sse_block ["event: e1", "data: \x7b\"a\": 1\x7d"] =
      some [("a", JVal.num 1), ("event", JVal.str "e1")] ∧
    pyGet [("a", JVal.num 1), ("event", JVal.str "e1")] "a" =
      pyGet [("a", JVal.num 1)] "a" ∧
    pyGet [("a", JVal.num 1), ("event", JVal.str "e1")] "event" =
      some (JVal.str "e1") := by
  obtain ⟨res, h1, h2, h3⟩ := parse_inject_merge
    ["event: e1", "data: \x7b\"a\": 1\x7d"] [("a", JVal.num 1)] rfl
  have hres : res = [("a", JVal.num 1), ("event", JVal.str "e1")] := by
    have h0 : parse_sse_block ["event: e1", "data: \x7b\"a\": 1\x7d"] =
        some [("a", JVal.num 1), ("event", JVal.str "e1")] := rfl
    rw [h1] at h0
    exact Option.some.inj h0
  rw [hres] at h1 h2 h3
  exact ⟨h1, h2 "a" (by decide), h3⟩

/-- Every payload is the same document as itself. -/
theorem objEquiv_refl (v : JVal) : objEquiv v v := by
  cases v <;> first | rfl | exact fun _ => rfl

/-- Two-field dicts with distinct keys are the same document in either
field order. -/
theorem objEquiv_swap2 (k1 k2 : String) (a b : JVal) (h : k1 ≠ k2) :
    objEquiv (JVal.obj [(k1, a), (k2, b)]) (JVal.obj [(k2, b), (k1, a)]) := by
  intro k
  by_cases h1 : k1 = k <;> by_cases h2 : k2 = k
  · exact absurd (h1.trans h2.symm) h
  · simp [pyGet, h1, h2]
  · simp [pyGet, h1, h2]
  · simp [pyGet, h1, h2]

/-- Truthiness of `d.get(k, '')` equals truthiness of the lookup
itself (the empty-string default is falsy). -/
theorem truthy_pyGetD_empty (kvs : List (String × JVal)) (k : String) :
    truthy (pyGetD kvs k (JVal.str "")) = truthyOpt (pyGet kvs k) := by
  unfold pyGetD
  cases pyGet kvs k <;> rfl

/-- Truthiness of `x.getD null` equals truthiness of `x`. -/
theorem truthy_getD_null (o : Option JVal) :
    truthy (o.getD JVal.null) = truthyOpt o := by
  cases o <;> rfl

/-- Empty frame sequences are the same. -/
theorem framesEquiv_nil : framesEquiv [] [] := List.Forall₂.nil

/-- Singleton data frames with equivalent payloads are the same. -/
theorem framesEquiv_singleton (a b : JVal) (h : objEquiv a b) :
    framesEquiv [Frame.data a] [Frame.data b] :=
  List.Forall₂.cons h List.Forall₂.nil

/-- Truthiness of a lookup wrapped by `some`. -/
theorem truthyOpt_some (v : JVal) : truthyOpt (some v) = truthy v := rfl

/-- The `or`-chain with final truthiness test of the `response.table`
branch computes exactly the first Python-truthy candidate field. -/
theorem table_row_eq (a b c : Option JVal) :
    (if truthy (pyOr (pyOr (a.getD JVal.null) (b.getD JVal.null))
        (c.getD JVal.null)) then
      some (pyOr (pyOr (a.getD JVal.null) (b.getD JVal.null))
        (c.getD JVal.null))
     else none) = firstPresent3 a b c := by
  cases a <;> cases b <;> cases c <;>
    simp [firstPresent3, pyOr, truthyOpt, truthy] <;>
      split_ifs <;> simp_all

/-- The chart-spec search with its final truthiness guard computes the
spec-side chart extractor. -/
theorem chart_row_eq (kvs : List (String × JVal)) :
    (match chartSpecOf kvs with
     | some s => if s = "" then none else some s
     | none => (none : Option String)) = specChartSpec kvs := by
  unfold chartSpecOf specChartSpec specNestedChart
  rcases ht : asStr (pyGet kvs "chart_spec") with _ | s
  · dsimp only
    rcases hc : pyGet kvs "chart" with _ | x
    · dsimp only
      rcases hj : pyGet kvs "json" with _ | y
      · rfl
      · cases y <;> (dsimp only; try rfl)
        case obj j =>
          by_cases hm : (truthyOpt (pyGet j "mark") ||
              truthyOpt (pyGet j "encoding")) = true
          · rw [if_pos hm]
            dsimp only
            rw [if_neg (by simpa [bne_iff_ne] using jsonDumps_obj_ne_empty j)]
          · rw [if_neg hm]
    · cases x <;> dsimp only
      case obj c =>
        rcases hn : asStr (pyGet c "chart_spec") with _ | s2
        · dsimp only
          by_cases hm : (truthyOpt (pyGet c "mark") ||
              truthyOpt (pyGet c "encoding")) = true
          · rw [if_pos hm]
            dsimp only
            rw [if_neg (by simpa [bne_iff_ne] using jsonDumps_obj_ne_empty c)]
          · rw [if_neg hm]
        · rfl
      all_goals
        rcases hj : pyGet kvs "json" with _ | y
        · rfl
        · cases y <;> (dsimp only; try rfl)
          case obj j =>
            by_cases hm : (truthyOpt (pyGet j "mark") ||
                truthyOpt (pyGet j "encoding")) = true
            · rw [if_pos hm]
              dsimp only
              rw [if_neg (by simpa [bne_iff_ne] using jsonDumps_obj_ne_empty j)]
            · rw [if_neg hm]
  · rfl

/-- C3: for every upstream block of a classified event type, the
dispatch emits exactly the downstream frame of the §4.2 table with the
§6 field mapping (frames compared as JSON documents, i.e. up to dict
key order); and the claim's round trip: the block parsed from
`event: response.text.delta` / `data: {"text":"hi"}` / blank is
`{"text":"hi","event":"response.text.delta"}`, which reclassifies to
the frame `{"type":"message","content":"hi"}`. -/
theorem reclassify_matches_spec_table :
    (∀ kvs, framesEquiv (reclassify kvs) (specReclassify kvs)) ∧
    parse_sse_block ["event: response.text.delta",
      "data: \x7b\"text\":\"hi\"\x7d", ""] =
      some [("text", JVal.str "hi"),
        ("event", JVal.str "response.text.delta")] ∧
    reclassify [("text", JVal.str "hi"),
      ("event", JVal.str "response.text.delta")] =
      [Frame.data (JVal.obj [("content", JVal.str "hi"),
        ("type", JVal.str "message")])] ∧
    framesEquiv [Frame.data (JVal.obj [("content", JVal.str "hi"),
      ("type", JVal.str "message")])]
      [Frame.data (JVal.obj [("type", JVal.str "message"),
        ("content", JVal.str "hi")])] := by
  refine ⟨?_, rfl, rfl,
    framesEquiv_singleton _ _ (objEquiv_swap2 "content" "type" _ _
      (by decide))⟩
  intro kvs
  unfold reclassify specReclassify
  by_cases h1 : evLabel kvs = some "response.thinking.delta"
  · rw [if_pos h1]
    rw [if_pos h1]
    rcases hg : pyGet kvs "text" with _ | v
    · rw [if_neg (show ¬truthy (pyGetD kvs "text" (JVal.str "")) = true from
        by unfold pyGetD; rw [hg]; exact Bool.false_ne_true)]
      rw [if_neg (show ¬truthyOpt (none : Option JVal) = true from
        Bool.false_ne_true)]
      exact framesEquiv_nil
    · rw [show pyGetD kvs "text" (JVal.str "") = v from
        by unfold pyGetD; rw [hg]; rfl]
      rw [truthyOpt_some]
      by_cases htv : truthy v = true
      · rw [if_pos htv]
        rw [if_pos htv]
        exact framesEquiv_singleton _ _
          (objEquiv_swap2 "content" "type" _ _ (by decide))
      · rw [if_neg htv]
        rw [if_neg htv]
        exact framesEquiv_nil
  · rw [if_neg h1]
    rw [if_neg h1]
    by_cases h2 : evLabel kvs = some "response.text.delta"
    · rw [if_pos h2]
      rw [if_pos h2]
      rcases hg : pyGet kvs "text" with _ | v
      · rw [if_neg (show ¬truthy (pyGetD kvs "text" (JVal.str "")) = true from
          by unfold pyGetD; rw [hg]; exact Bool.false_ne_true)]
        rw [if_neg (show ¬truthyOpt (none : Option JVal) = true from
          Bool.false_ne_true)]
        exact framesEquiv_nil
      · rw [show pyGetD kvs "text" (JVal.str "") = v from
          by unfold pyGetD; rw [hg]; rfl]
        rw [truthyOpt_some]
        by_cases htv : truthy v = true
        · rw [if_pos htv]
          rw [if_pos htv]
          exact framesEquiv_singleton _ _
            (objEquiv_swap2 "content" "type" _ _ (by decide))
        · rw [if_neg htv]
          rw [if_neg htv]
          exact framesEquiv_nil
    · rw [if_neg h2]
      rw [if_neg h2]
      by_cases h3 : evLabel kvs = some "response.table"
      · rw [if_pos h3]
        rw [if_pos h3]
        have he := table_row_eq (pyGet kvs "table") (pyGet kvs "json")
          (pyGet kvs "content")
        rcases hf : firstPresent3 (pyGet kvs "table") (pyGet kvs "json")
            (pyGet kvs "content") with _ | v
        · rw [hf] at he
          by_cases htc : truthy (pyOr (pyOr
              ((pyGet kvs "table").getD JVal.null)
              ((pyGet kvs "json").getD JVal.null))
              ((pyGet kvs "content").getD JVal.null)) = true
          · rw [if_pos htc] at he
            exact Option.noConfusion he
          · rw [if_neg htc]
            exact framesEquiv_nil
        · rw [hf] at he
          by_cases htc : truthy (pyOr (pyOr
              ((pyGet kvs "table").getD JVal.null)
              ((pyGet kvs "json").getD JVal.null))
              ((pyGet kvs "content").getD JVal.null)) = true
          · rw [if_pos htc] at he
            have hv := Option.some.inj he
            rw [if_pos htc, hv]
            exact framesEquiv_singleton _ _ (objEquiv_refl _)
          · rw [if_neg htc] at he
            exact Option.noConfusion he
      · rw [if_neg h3]
        rw [if_neg h3]
        by_cases h4 : evLabel kvs = some "response.chart"
        · rw [if_pos h4]
          rw [if_pos h4]
          have he := chart_row_eq kvs
          rcases hcs : chartSpecOf kvs with _ | s
          · rw [hcs] at he
            dsimp only at he
            rw [← he]
            exact framesEquiv_nil
          · rw [hcs] at he
            dsimp only at he
            by_cases hs : s = ""
            · rw [if_pos hs] at he
              rw [← he]
              dsimp only
              rw [if_neg (show ¬(s != "") = true from by simp [hs])]
              exact framesEquiv_nil
            · rw [if_neg hs] at he
              rw [← he]
              dsimp only
              rw [if_pos (show (s != "") = true from
                by simp [bne_iff_ne, hs])]
              exact framesEquiv_singleton _ _ (objEquiv_refl _)
        · rw [if_neg h4]
          rw [if_neg h4]
          by_cases h5 : evLabel kvs = some "response.tool_use"
          · rw [if_pos h5]
            rw [if_pos h5]
            exact framesEquiv_singleton _ _
              (objEquiv_swap2 "content" "type" _ _ (by decide))
          · rw [if_neg h5]
            rw [if_neg h5]
            by_cases h6 : evLabel kvs =
                some "response.tool_result.analyst.delta"
            · rw [if_pos h6]
              rw [if_pos h6]
              rcases hd : pyGetD kvs "delta" (JVal.obj [])
                with _ | b | n | s | xs | d
              · exact framesEquiv_nil
              · exact framesEquiv_nil
              · exact framesEquiv_nil
              · exact framesEquiv_nil
              · exact framesEquiv_nil
              · dsimp only
                rw [truthy_getD_null]
                by_cases hq : truthyOpt (pyGet d "sql") = true
                · rw [if_pos hq]
                  exact framesEquiv_singleton _ _ (objEquiv_refl _)
                · rw [if_neg hq]
                  exact framesEquiv_nil
            · rw [if_neg h6]
              rw [if_neg h6]
              by_cases h7 : evLabel kvs = some "response.status"
              · rw [if_pos h7]
                rw [if_pos h7]
                rcases hg : pyGet kvs "message" with _ | v
                · rw [if_neg (show
                    ¬truthy (pyGetD kvs "message" (JVal.str "")) = true from
                    by unfold pyGetD; rw [hg]; exact Bool.false_ne_true)]
                  rw [if_neg (show ¬truthyOpt (none : Option JVal) = true from
                    Bool.false_ne_true)]
                  exact framesEquiv_nil
                · rw [show pyGetD kvs "message" (JVal.str "") = v from
                    by unfold pyGetD; rw [hg]; rfl]
                  rw [truthyOpt_some]
                  by_cases htv : truthy v = true
                  · rw [if_pos htv]
                    rw [if_pos htv]
                    exact framesEquiv_singleton _ _
                      (objEquiv_swap2 "content" "type" _ _ (by decide))
                  · rw [if_neg htv]
                    rw [if_neg htv]
                    exact framesEquiv_nil
              · rw [if_neg h7]
                rw [if_neg h7]
                by_cases h8 : evLabel kvs = some "error"
                · rw [if_pos h8]
                  rw [if_pos h8]
                  exact framesEquiv_singleton _ _
                    (objEquiv_swap2 "content" "type" _ _ (by decide))
                · rw [if_neg h8]
                  rw [if_neg h8]
                  exact framesEquiv_nil
